import Mathlib

/-!
Verification development for the EveryActionTools activist-sync engine
(`sync_activists.py`).  The Python program is shallowly embedded: each
method of `SyncActvists` becomes a Lean function over explicit state, the
remote EveryAction client becomes a record of pure functions returning
`Except String` (an `error` models a raised exception of the kind the code
can encounter at that call site), and the append-only checkpoint log
becomes a list of entries.  Console/stderr output, which carries no
program state, is not modelled.
-/

namespace SyncActivists

/-- A CSV row as produced by `csv.DictReader`: an association list from
column name to string value.  Every header column is present in every row. -/
def Row := List (String × String)

/-- `user.get(k, d)` — dictionary lookup with default. -/
def Row.getD (r : Row) (k d : String) : String :=
  match List.lookup k r with
  | some v => v
  | none => d

/-- Python string truthiness: a string is truthy iff nonempty. -/
def truthy (s : String) : Bool := s ≠ ""

/-- `digits` (sync_activists.py:314): `re.sub(r'\D', '', phone.lstrip('+1'))` —
strip leading characters drawn from the set +,1 and keep only digits. -/
def digits (phone : String) : String :=
  String.mk (((phone.data.dropWhile (fun c => c = '+' || c = '1'))).filter Char.isDigit)

/-- One element of the `phones` payload sent to the remote service. -/
structure Phone where
  phoneNumber : String
  phoneType : Option String := none
  phoneOptInStatus : Option String := none
deriving Repr, DecidableEq

/-- `get_user_phones` (sync_activists.py:274): extract candidate phones from
`can2_phone` plus the generic columns `Phone` and `Phone Number`,
deduplicated by `digits`; returns the phone payload together with the
labels appended to `user_actions`. -/
def get_user_phones (user : Row) : List Phone × List String :=
  let user_mobile := user.getD "can2_phone" ""
  let init : List Phone × List String × List String :=
    if truthy user_mobile then
      if user.getD "can2_sms_status" "unknown" = "subscribed" then
        ([{ phoneNumber := user_mobile, phoneType := some "C",
            phoneOptInStatus := some "I" }],
         [digits user_mobile], ["mobile subscribed"])
      else
        ([{ phoneNumber := user_mobile, phoneType := some "C" }],
         [digits user_mobile], ["mobile"])
    else ([], [], [])
  let addGeneric := fun (st : List Phone × List String × List String) (field : String) =>
    let user_phone := user.getD field ""
    if truthy user_phone && !(st.2.1.contains (digits user_phone)) then
      (st.1 ++ [{ phoneNumber := user_phone }],
       st.2.1 ++ [digits user_phone],
       st.2.2 ++ [field])
    else st
  let fin := addGeneric (addGeneric init "Phone") "Phone Number"
  (fin.1, fin.2.2)

/-- An email record on a remote contact (`everyaction.objects` email).
`subscriptionStatus` is `none` for Python `None`; an empty string is also
falsy in Python, which `orNoneStr` below accounts for. -/
structure ContactEmail where
  isPreferred : Bool
  subscriptionStatus : Option String
  isSubscribed : Option Bool := none
deriving Repr, DecidableEq

/-- A remote contact as returned by `people.lookup` / `find_or_create`. -/
structure Person where
  van_id : Nat
  emails : List ContactEmail
deriving Repr, DecidableEq

/-- A value of the tag mapping: an `ActivistCode` (keyed by
`activistCodeId`) or a generic `Code` (keyed by `codeId`). -/
inductive CodeData where
  | activist (activistCodeId : Nat) (name : String)
  | generic (codeId : Nat) (name : String)
deriving Repr, DecidableEq

/-- The dictionary key used for `code_by_name` (sync_activists.py:334-336). -/
def codeId : CodeData → Nat
  | .activist i _ => i
  | .generic i _ => i

def codeName : CodeData → String
  | .activist _ n => n
  | .generic _ n => n

/-- The email payload built by `update_or_create` (sync_activists.py:244). -/
structure EmailField where
  email : String
  type : String
  isPreferred : Bool
  isSubscribed : Bool
deriving Repr, DecidableEq

/-- The `fields` dictionary passed to `people.find_or_create`
(sync_activists.py:243-265). -/
structure PersonFields where
  emails : List EmailField
  firstName : String
  lastName : String
  addresses : List (List (String × String)) := []
  phones : List Phone := []
deriving Repr, DecidableEq

/-- One remote API call made by the engine.  `lookup` and
`listActivistCodes` are reads; the rest are mutations. -/
inductive RemoteCall where
  | lookup (email : String)
  | findOrCreate (fields : PersonFields)
  | updateEmails (vanId : Nat) (email : ContactEmail)
  | updatePhones (vanId : Nat) (phones : List Phone)
  | listActivistCodes (vanId : Nat)
  | applyActivistCode (codeId vanId : Nat)
deriving Repr, DecidableEq

/-- Whether a remote call mutates remote state. -/
def isMutation : RemoteCall → Bool
  | .lookup _ => false
  | .listActivistCodes _ => false
  | _ => true

/-- The remote EveryAction client, as a record of pure functions.  An
`Except.error` models the exception the program can observe at that call
site (`AttributeError` for `lookup`, `EAHTTPException` for the mutation
calls).  `activistCodes` returns the applied activist code ids of a
contact. -/
structure Remote where
  lookup : String → Except String (Option Person)
  findOrCreate : PersonFields → Except String Person
  updateEmails : Nat → ContactEmail → Except String Unit
  updatePhones : Nat → List Phone → Except String Unit
  applyActivistCode : Nat → Nat → Except String Unit
  activistCodes : Nat → List Nat

/-- Command-line options relevant to the row engine. -/
structure Args where
  start_row : Nat
  end_row : Nat
  update : Bool
  dryrun : Bool
deriving Repr, DecidableEq

/-- Result of one delta-sync step: labels appended to `user_actions`,
remote calls attempted, and `some ex` when an uncaught exception
propagates (terminating the run). -/
structure StepResult where
  acts : List String
  calls : List RemoteCall
  fault : Option String
deriving Repr, DecidableEq

/-- Sequencing of delta steps: a fault in `a` prevents `b` from running
(the exception unwinds the per-row processing). -/
def StepResult.seq (a b : StepResult) : StepResult :=
  if a.fault.isSome then a
  else { acts := a.acts ++ b.acts, calls := a.calls ++ b.calls, fault := b.fault }

/-- `sync_phones` (sync_activists.py:192): push extracted phones; an
`EAHTTPException` from the update is caught and its text appended to
`user_actions` — this step never faults. -/
def sync_phones (args : Args) (remote : Remote) (person : Person) (user : Row) :
    StepResult :=
  let pr := get_user_phones user
  if pr.1.length > 0 then
    if !args.dryrun then
      match remote.updatePhones person.van_id pr.1 with
      | .ok _ =>
        { acts := pr.2, calls := [.updatePhones person.van_id pr.1], fault := none }
      | .error ex =>
        { acts := pr.2 ++ [ex], calls := [.updatePhones person.van_id pr.1],
          fault := none }
    else { acts := pr.2, calls := [], fault := none }
  else { acts := pr.2, calls := [], fault := none }

/-- `contact_email.subscriptionStatus or "None"` (sync_activists.py:214):
Python `or` substitutes "None" for a falsy value (`None` or `""`). -/
def orNoneStr : Option String → String
  | none => "None"
  | some t => if t = "" then "None" else t

/-- The first preferred email of a contact (loop at sync_activists.py:210). -/
def findPreferred (emails : List ContactEmail) : Option ContactEmail :=
  emails.find? (·.isPreferred)

/-- `sync_email_subscription` (sync_activists.py:206).  When the contact
has no preferred email, `person_subscription_status` is never assigned and
the comparison raises `UnboundLocalError` (uncaught).  A fault from
`people.update` is likewise uncaught. -/
def sync_email_subscription (args : Args) (remote : Remote) (person : Person)
    (user : Row) : StepResult :=
  match findPreferred person.emails with
  | none =>
    { acts := [], calls := [],
      fault := some "UnboundLocalError: person_subscription_status" }
  | some pref =>
    let status := orNoneStr pref.subscriptionStatus
    if user.getD "can2_subscription_status" "" = "unsubscribed" then
      if status = "None" then
        let act := "Unsubscribed(was " ++ status ++ "]"
        let updated : ContactEmail := { pref with isSubscribed := some false }
        if !args.dryrun then
          match remote.updateEmails person.van_id updated with
          | .ok _ =>
            { acts := [act], calls := [.updateEmails person.van_id updated],
              fault := none }
          | .error ex =>
            { acts := [act], calls := [.updateEmails person.van_id updated],
              fault := some ex }
        else { acts := [act], calls := [], fault := none }
      else { acts := [], calls := [], fault := none }
    else
      if status = "None" then
        let act := "Subscribed[was " ++ status ++ "]"
        let updated : ContactEmail := { pref with isSubscribed := some true }
        if !args.dryrun then
          match remote.updateEmails person.van_id updated with
          | .ok _ =>
            { acts := [act], calls := [.updateEmails person.van_id updated],
              fault := none }
          | .error ex =>
            { acts := [act], calls := [.updateEmails person.van_id updated],
              fault := some ex }
        else { acts := [act], calls := [], fault := none }
      else { acts := [], calls := [], fault := none }

/-- The address payload (sync_activists.py:256-259): for each surviving
mapping pair old-column to new-field, keep a truthy row value. -/
def buildAddress (addrMapping : List (String × String)) (user : Row) :
    List (String × String) :=
  addrMapping.foldl (fun acc p =>
    let v := user.getD p.1 ""
    if v ≠ "" then acc ++ [(p.2, v)] else acc) []

/-- The `fields` payload of `update_or_create` (sync_activists.py:243-265). -/
def buildPersonFields (addrMapping : List (String × String)) (user : Row)
    (phones : List Phone) : PersonFields :=
  let address := buildAddress addrMapping user
  { emails := [{ email := user.getD "email" "", type := "P", isPreferred := true,
                 isSubscribed := user.getD "can2_subscription_status" "" == "unsubscribed" }],
    firstName := user.getD "first_name" "",
    lastName := user.getD "last_name" "",
    addresses := if address.length > 0 then [address] else [],
    phones := phones }

/-- Result of `update_or_create`: the person returned (None in dry-run),
phone labels appended, calls attempted, and a fault when `find_or_create`
raises (uncaught). -/
structure CreateResult where
  person : Option Person
  acts : List String
  calls : List RemoteCall
  fault : Option String
deriving Repr, DecidableEq

/-- `update_or_create` (sync_activists.py:235). -/
def update_or_create (args : Args) (remote : Remote)
    (addrMapping : List (String × String)) (user : Row) : CreateResult :=
  let pr := get_user_phones user
  let fields := buildPersonFields addrMapping user pr.1
  if !args.dryrun then
    match remote.findOrCreate fields with
    | .ok p =>
      { person := some p, acts := pr.2, calls := [.findOrCreate fields], fault := none }
    | .error ex =>
      { person := none, acts := pr.2, calls := [.findOrCreate fields], fault := some ex }
  else { person := none, acts := pr.2, calls := [], fault := none }

/-- Python dict assignment `d[k] = v` on an insertion-ordered association
list: replace in place when the key exists, else append. -/
def assocSetCode (l : List (Nat × CodeData)) (k : Nat) (v : CodeData) :
    List (Nat × CodeData) :=
  if l.any (fun p => p.1 == k) then
    l.map (fun p => if p.1 == k then (k, v) else p)
  else l ++ [(k, v)]

/-- Python `s.split(", ")`: cut the character list at every occurrence of
the two-character separator comma-space, left to right. -/
def splitCommaSpace : List Char → List Char → List String
  | [], cur => [String.mk cur.reverse]
  | ',' :: ' ' :: rest, cur => String.mk cur.reverse :: splitCommaSpace rest []
  | c :: rest, cur => splitCommaSpace rest (c :: cur)

/-- `user['can2_user_tags'].split(", ")` (sync_activists.py:330). -/
def pySplitTags (s : String) : List String := splitCommaSpace s.data []

/-- `code_by_name` construction (sync_activists.py:329-344): split the tag
column on ", ", resolve each nonempty tag through the mapping, and key the
result by code id. -/
def codeByName (mapping : List (String × CodeData)) (tagsField : String) :
    List (Nat × CodeData) :=
  (pySplitTags tagsField).foldl (fun acc user_tag =>
    if user_tag ≠ "" then
      match List.lookup user_tag mapping with
      | some cd => assocSetCode acc (codeId cd) cd
      | none => acc
    else acc) []

/-- The apply loop of `sync_tags` (sync_activists.py:359-364): activist
codes are labelled and applied (live mode); generic codes are silently
skipped; an exception from `apply_activist_code` is uncaught and stops the
loop. -/
def applyRemaining (args : Args) (remote : Remote) (vanId : Nat) :
    List (Nat × CodeData) → StepResult → StepResult
  | [], st => st
  | (i, cd) :: rest, st =>
    match cd with
    | .generic _ _ => applyRemaining args remote vanId rest st
    | .activist _ name =>
      let st1 : StepResult := { st with acts := st.acts ++ [name] }
      if args.dryrun then applyRemaining args remote vanId rest st1
      else
        match remote.applyActivistCode i vanId with
        | .ok _ =>
          applyRemaining args remote vanId rest
            { st1 with calls := st1.calls ++ [.applyActivistCode i vanId] }
        | .error ex =>
          { st1 with
            calls := st1.calls ++ [.applyActivistCode i vanId]
            fault := some ex }

/-- `sync_tags` (sync_activists.py:318): resolve tags, subtract the codes
already applied to the contact (fetched fresh), apply the rest. -/
def sync_tags (args : Args) (remote : Remote)
    (mapping : List (String × CodeData)) (person : Person) (user : Row) :
    StepResult :=
  let cbn := codeByName mapping (user.getD "can2_user_tags" "")
  if cbn.length > 0 then
    let existing := remote.activistCodes person.van_id
    let remaining := cbn.filter (fun p => !(existing.contains p.1))
    applyRemaining args remote person.van_id remaining
      { acts := [], calls := [.listActivistCodes person.van_id], fault := none }
  else { acts := [], calls := [], fault := none }

/-- One checkpoint log line `[NNNN] STATUS key message`, in structured
form before rendering. -/
structure Entry where
  rowid : Nat
  status : String
  key : String
  message : String
deriving Repr, DecidableEq

/-- `log_actions` (sync_activists.py:116): in dry-run mode a would-be OK
status is rewritten to DRYRUN before the line is written. -/
def log_actions (dryrun : Bool) (rowid : Nat) (status key message : String) : Entry :=
  let status := if dryrun && status == "OK" then "DRYRUN" else status
  { rowid := rowid, status := status, key := key, message := message }

/-- The single-quote character, for rendering Python list reprs. -/
def sq : Char := Char.ofNat 39

/-- `str(user_actions)` — the Python rendering of a list of strings used as
the log message of the terminal OK line. -/
def pyStrList (l : List String) : String :=
  "[" ++ String.intercalate ", " (l.map (fun s => String.mk (sq :: s.data ++ [sq]))) ++ "]"

/-- Decimal digit character. -/
def digitChar (d : Nat) : Char := Char.ofNat (48 + d)

/-- Little-endian decimal digits, driven by a fuel counter so that the
recursion is structural; fuel `n` always suffices for input `n`. -/
def natDigitsRevFuel : Nat → Nat → List Char
  | _, 0 => []
  | 0, _ + 1 => []
  | fuel + 1, n + 1 => digitChar ((n + 1) % 10) :: natDigitsRevFuel fuel ((n + 1) / 10)

/-- Little-endian decimal digits of a positive number (empty for 0). -/
def natDigitsRevAux (n : Nat) : List Char := natDigitsRevFuel n n

/-- Decimal rendering of a natural number. -/
def natRepr (n : Nat) : String :=
  if n = 0 then "0" else String.mk (natDigitsRevAux n).reverse

/-- The f-string padding `{rowid:0>4}`: left-pad the decimal rendering
with the character 0 to width 4. -/
def pad4 (n : Nat) : String :=
  if (natRepr n).data.length < 4 then
    String.mk (List.replicate (4 - (natRepr n).data.length) '0' ++ (natRepr n).data)
  else natRepr n

/-- The rendered log line `[NNNN] STATUS key message`
(sync_activists.py:125). -/
def renderEntry (e : Entry) : String :=
  String.mk ('[' :: (pad4 e.rowid).data ++ ']' :: ' ' :: e.status.data
    ++ ' ' :: e.key.data ++ ' ' :: e.message.data)

/-- Which optional columns the CSV header declares
(sync_activists.py:141-144). -/
structure FileCols where
  check_email_subscription_status : Bool
  check_phones : Bool
  check_tags : Bool
deriving Repr, DecidableEq

def mkCols (fieldnames : List String) : FileCols :=
  { check_email_subscription_status := fieldnames.contains "can2_subscription_status",
    check_phones := ["Phone", "Phone Number", "can2_phone"].any fieldnames.contains,
    check_tags := fieldnames.contains "can2_user_tags" }

/-- Outcome of processing one eligible row: log entries appended, the
final `user_actions` list, remote calls attempted, and a fault when an
uncaught exception unwound the loop. -/
structure RowOutcome where
  entries : List Entry
  acts : List String
  calls : List RemoteCall
  fault : Option String
deriving Repr, DecidableEq

/-- The empty `user_actions` accumulator state. -/
def stNil : StepResult := { acts := [], calls := [], fault := none }

/-- The two guarded delta calls of the else-branch
(sync_activists.py:178-185): subscription sync when its column is present,
then phone sync when a phone column is present; an uncaught exception from
the first prevents the second. -/
def deltaSteps (args : Args) (remote : Remote) (cols : FileCols) (p : Person)
    (user : Row) : StepResult :=
  let st1 := if cols.check_email_subscription_status then
      stNil.seq (sync_email_subscription args remote p user)
    else stNil
  if st1.fault.isSome then st1
  else if cols.check_phones then st1.seq (sync_phones args remote p user)
  else st1

/-- The create/update/delta branch of the row body
(sync_activists.py:171-185), given the person produced by the lookup. -/
def mainStep (args : Args) (remote : Remote) (addrMapping : List (String × String))
    (cols : FileCols) (person0 : Option Person) (user : Row) :
    Option Person × StepResult :=
  match person0 with
  | none =>
    let r := update_or_create args remote addrMapping user
    (r.person, { acts := "create" :: r.acts, calls := r.calls, fault := r.fault })
  | some p =>
    if args.update then
      let r := update_or_create args remote addrMapping user
      (r.person, { acts := "update" :: r.acts, calls := r.calls, fault := r.fault })
    else (some p, deltaSteps args remote cols p user)

/-- The tag sync guard (sync_activists.py:187-188): runs only when the
branch produced a truthy person and the tag column is present. -/
def tagStep (args : Args) (remote : Remote) (mapping : List (String × CodeData))
    (cols : FileCols) (main : Option Person × StepResult) (user : Row) : StepResult :=
  if main.2.fault.isSome then main.2
  else match main.1 with
    | some p =>
      if cols.check_tags then main.2.seq (sync_tags args remote mapping p user)
      else main.2
    | none => main.2

/-- The per-row body of `sync_file` (sync_activists.py:155-190), for a row
that passed the window and resume-skip checks.  A lookup
`AttributeError` is caught, logged as ERROR, and leaves `person = None`,
after which control falls into the create branch (there is no
`continue`). -/
def processRow (args : Args) (remote : Remote)
    (mapping : List (String × CodeData)) (addrMapping : List (String × String))
    (cols : FileCols) (rowid : Nat) (user : Row) : RowOutcome :=
  let email := user.getD "email" ""
  let lk := remote.lookup email
  let person0 : Option Person := match lk with | .ok p => p | .error _ => none
  let entries0 : List Entry := match lk with
    | .ok _ => []
    | .error ex =>
      [log_actions args.dryrun rowid "ERROR" email ("AttributeError: " ++ ex)]
  let stT := tagStep args remote mapping cols
    (mainStep args remote addrMapping cols person0 user) user
  if stT.fault.isSome then
    { entries := entries0, acts := stT.acts,
      calls := RemoteCall.lookup email :: stT.calls, fault := stT.fault }
  else
    { entries := entries0
        ++ [log_actions args.dryrun rowid "OK" email (pyStrList stT.acts)],
      acts := stT.acts,
      calls := RemoteCall.lookup email :: stT.calls, fault := none }

/-- State of the row loop in `sync_file`: the running row counter, the
entries appended to the log, the remote calls made tagged by row, and the
fault that terminated the run (if any).  Once a fault is set, later rows
are not reached. -/
structure RunState where
  rowid : Nat
  entries : List Entry
  calls : List (Nat × RemoteCall)
  fault : Option String
deriving Repr, DecidableEq

/-- One iteration of the `for user in reader` loop
(sync_activists.py:154-190): bump the counter, apply the run window, then
the resume skip set, then process the row. -/
def runStep (args : Args) (remote : Remote)
    (mapping : List (String × CodeData)) (addrMapping : List (String × String))
    (cols : FileCols) (skip : List (Nat × String)) (st : RunState) (user : Row) :
    RunState :=
  if st.fault.isSome then st
  else
    let rowid := st.rowid + 1
    if !(decide (args.start_row ≤ rowid) && decide (rowid ≤ args.end_row)) then
      { st with rowid := rowid }
    else if skip.any (fun p => p.1 == rowid) then
      { st with rowid := rowid }
    else
      let out := processRow args remote mapping addrMapping cols rowid user
      { rowid := rowid
        entries := st.entries ++ out.entries
        calls := st.calls ++ out.calls.map (fun c => (rowid, c))
        fault := out.fault }

/-- `sync_file` (sync_activists.py:128): fail fast when the `email` column
is missing, filter the address mapping down to the present columns, and
fold the row loop over the dataset. -/
def sync_file (args : Args) (remote : Remote)
    (mapping : List (String × CodeData)) (addrMapping : List (String × String))
    (fieldnames : List String) (rows : List Row) (skip : List (Nat × String)) :
    Except String RunState :=
  if !(fieldnames.contains "email") then
    Except.error "Error: Expected column email"
  else
    let cols := mkCols fieldnames
    let addrFound := addrMapping.filter (fun p => fieldnames.contains p.1)
    Except.ok (rows.foldl (runStep args remote mapping addrFound cols skip)
      { rowid := 0, entries := [], calls := [], fault := none })

/-- Python `str.split(None, 2)` on the characters of a line: split on runs
of whitespace, at most twice; the third piece keeps its tail verbatim. -/
def pySplitWs2Data (cs : List Char) : List String :=
  let cs1 := cs.dropWhile Char.isWhitespace
  if cs1.isEmpty then []
  else
    let t1 := cs1.takeWhile (fun c => !c.isWhitespace)
    let r1 := (cs1.dropWhile (fun c => !c.isWhitespace)).dropWhile Char.isWhitespace
    if r1.isEmpty then [String.mk t1]
    else
      let t2 := r1.takeWhile (fun c => !c.isWhitespace)
      let r2 := (r1.dropWhile (fun c => !c.isWhitespace)).dropWhile Char.isWhitespace
      if r2.isEmpty then [String.mk t1, String.mk t2]
      else [String.mk t1, String.mk t2, String.mk r2]

def pySplitWs2 (s : String) : List String := pySplitWs2Data s.data

/-- Python slice `s[1:-1]`. -/
def pySlice1m1 (s : String) : String := String.mk ((s.data.drop 1).dropLast)

/-- Python `int()` restricted to plain digit strings (the only shape the
log scanner feeds it); any other shape raises `ValueError`. -/
def pyIntDigits (s : String) : Option Nat :=
  if !s.data.isEmpty && s.data.all Char.isDigit then
    some (s.data.foldl (fun a c => 10 * a + (c.toNat - 48)) 0)
  else none

/-- Python dict assignment for the skip dictionary `skip_item[itemid] = verb`. -/
def assocSetSkip (l : List (Nat × String)) (k : Nat) (v : String) :
    List (Nat × String) :=
  if l.any (fun p => p.1 == k) then
    l.map (fun p => if p.1 == k then (k, v) else p)
  else l ++ [(k, v)]

/-- Membership in the skip dictionary (`rowid in self.skip_item`). -/
def skipContains (l : List (Nat × String)) (i : Nat) : Bool :=
  l.any (fun p => p.1 == i)

/-- One iteration of the resume scan loop (sync_activists.py:454-463):
tokenize the line, and when the verb is OK or SKIP record the bracketed
row index; a malformed index raises `ValueError` (uncaught). -/
def scanLogLine (skip : List (Nat × String)) (line : String) :
    Except String (List (Nat × String)) :=
  let toks := pySplitWs2 line
  if toks.length ≥ 2 then
    let verb := toks.getD 1 ""
    if verb = "OK" ∨ verb = "SKIP" then
      match pyIntDigits (pySlice1m1 (toks.getD 0 "")) with
      | some itemid => Except.ok (assocSetSkip skip itemid verb)
      | none => Except.error "ValueError: invalid literal for int"
    else Except.ok skip
  else Except.ok skip

/-- The resume scan of `init_logfile` (sync_activists.py:446-463) over the
log lines following the header: build the skip dictionary. -/
def init_logfile_scan : List String → List (Nat × String) →
    Except String (List (Nat × String))
  | [], skip => Except.ok skip
  | line :: rest, skip =>
    match scanLogLine skip line with
    | Except.ok sk => init_logfile_scan rest sk
    | Except.error e => Except.error e

/-! ### Helper lemmas: characters and decimal rendering -/

lemma isDigit_not_ws (c : Char) (h : c.isDigit = true) : c.isWhitespace = false := by
  cases hw : c.isWhitespace
  · rfl
  · exfalso
    simp [Char.isWhitespace] at hw
    rcases hw with ((h1 | h1) | h1) | h1 <;> subst h1 <;> exact absurd h (by decide)

lemma digitChar_isDigit (d : Nat) (h : d < 10) : (digitChar d).isDigit = true := by
  unfold digitChar
  interval_cases d <;> decide

lemma digitChar_toNat (d : Nat) (h : d < 10) : (digitChar d).toNat = 48 + d := by
  unfold digitChar
  interval_cases d <;> decide

/-- Positional value of a little-endian digit-character list. -/
def evalRev : List Char → Nat
  | [] => 0
  | c :: cs => (c.toNat - 48) + 10 * evalRev cs

lemma natDigitsRevFuel_congr : ∀ (n f1 f2 : Nat), n ≤ f1 → n ≤ f2 →
    natDigitsRevFuel f1 n = natDigitsRevFuel f2 n := by
  intro n
  induction n using Nat.strong_induction_on with
  | _ n ih =>
    intro f1 f2 h1 h2
    match n, f1, f2, h1, h2 with
    | 0, f1, f2, _, _ => cases f1 <;> cases f2 <;> rfl
    | m + 1, a + 1, b + 1, h1, h2 =>
      show digitChar _ :: natDigitsRevFuel a ((m + 1) / 10)
        = digitChar _ :: natDigitsRevFuel b ((m + 1) / 10)
      have hdiv : (m + 1) / 10 < m + 1 := Nat.div_lt_self (Nat.succ_pos m) (by omega)
      rw [ih _ hdiv a b (by omega) (by omega)]

lemma natDigitsRevAux_eq (m : Nat) :
    natDigitsRevAux (m + 1)
      = digitChar ((m + 1) % 10) :: natDigitsRevAux ((m + 1) / 10) := by
  show natDigitsRevFuel (m + 1) (m + 1)
    = digitChar ((m + 1) % 10) :: natDigitsRevFuel ((m + 1) / 10) ((m + 1) / 10)
  show digitChar ((m + 1) % 10) :: natDigitsRevFuel m ((m + 1) / 10)
    = digitChar ((m + 1) % 10) :: natDigitsRevFuel ((m + 1) / 10) ((m + 1) / 10)
  have hdiv : (m + 1) / 10 < m + 1 := Nat.div_lt_self (Nat.succ_pos m) (by omega)
  rw [natDigitsRevFuel_congr ((m + 1) / 10) m ((m + 1) / 10) (by omega) (by omega)]

lemma foldl_digits_reverse (l : List Char) (a : Nat) :
    l.reverse.foldl (fun x c => 10 * x + (c.toNat - 48)) a
      = a * 10 ^ l.length + evalRev l := by
  induction l generalizing a with
  | nil => simp [evalRev]
  | cons c cs ih =>
    rw [List.reverse_cons, List.foldl_append, ih]
    simp only [List.foldl, evalRev, List.length_cons, pow_succ]
    ring

lemma evalRev_natDigitsRevAux (n : Nat) : evalRev (natDigitsRevAux n) = n := by
  induction n using Nat.strong_induction_on with
  | _ n ih =>
    match n with
    | 0 => simp [natDigitsRevAux, natDigitsRevFuel, evalRev]
    | m + 1 =>
      rw [natDigitsRevAux_eq]
      have hd : (m + 1) % 10 < 10 := Nat.mod_lt _ (by omega)
      have hdiv : (m + 1) / 10 < m + 1 := Nat.div_lt_self (Nat.succ_pos m) (by omega)
      simp only [evalRev, digitChar_toNat _ hd, ih _ hdiv]
      omega

lemma natDigitsRevAux_all_digit (n : Nat) :
    ∀ c ∈ natDigitsRevAux n, c.isDigit = true := by
  induction n using Nat.strong_induction_on with
  | _ n ih =>
    match n with
    | 0 => intro c hc; simp [natDigitsRevAux, natDigitsRevFuel] at hc
    | m + 1 =>
      rw [natDigitsRevAux_eq]
      intro c hc
      rcases List.mem_cons.mp hc with h | h
      · subst h; exact digitChar_isDigit _ (Nat.mod_lt _ (by omega))
      · exact ih _ (Nat.div_lt_self (Nat.succ_pos m) (by omega)) c h

lemma natRepr_all_digit (n : Nat) : ∀ c ∈ (natRepr n).data, c.isDigit = true := by
  unfold natRepr
  split
  · intro c hc
    simp only [String.data] at hc
    simp at hc
    subst hc; decide
  · intro c hc
    simp only [String.data] at hc
    exact natDigitsRevAux_all_digit n c (List.mem_reverse.mp hc)

lemma natRepr_ne_nil (n : Nat) : (natRepr n).data ≠ [] := by
  unfold natRepr
  split
  · simp
  · rename_i h
    match hm : n, h with
    | m + 1, _ =>
      rw [natDigitsRevAux_eq]
      simp

lemma pad4_all_digit (n : Nat) : ∀ c ∈ (pad4 n).data, c.isDigit = true := by
  unfold pad4
  split
  · intro c hc
    simp only [String.data] at hc
    rcases List.mem_append.mp hc with h | h
    · have := List.eq_of_mem_replicate h
      subst this; decide
    · exact natRepr_all_digit n c h
  · exact natRepr_all_digit n

lemma pad4_ne_nil (n : Nat) : (pad4 n).data ≠ [] := by
  unfold pad4
  split
  · intro h
    simp only [String.data] at h
    rcases List.append_eq_nil.mp h with ⟨-, h2⟩
    exact natRepr_ne_nil n h2
  · exact natRepr_ne_nil n

lemma foldl_digits_replicate_zero (k : Nat) (l : List Char) :
    (List.replicate k '0' ++ l).foldl (fun x c => 10 * x + (c.toNat - 48)) 0
      = l.foldl (fun x c => 10 * x + (c.toNat - 48)) 0 := by
  induction k with
  | zero => rfl
  | succ k ih => simpa using ih

lemma foldl_digits_natRepr (n : Nat) :
    (natRepr n).data.foldl (fun x c => 10 * x + (c.toNat - 48)) 0 = n := by
  unfold natRepr
  split
  · rename_i h; subst h; rfl
  · simp only [String.data]
    rw [foldl_digits_reverse, evalRev_natDigitsRevAux]
    simp

/-- Parsing the padded row index recovers the index. -/
lemma pyIntDigits_pad4 (n : Nat) : pyIntDigits (String.mk (pad4 n).data) = some n := by
  unfold pyIntDigits
  have hall : (pad4 n).data.all Char.isDigit = true := by
    rw [List.all_eq_true]; exact pad4_all_digit n
  have hne : (pad4 n).data.isEmpty = false := by
    rw [List.isEmpty_eq_false_iff_exists_mem]
    rcases List.exists_mem_of_ne_nil _ (pad4_ne_nil n) with ⟨c, hc⟩
    exact ⟨c, hc⟩
  simp only [String.data, hne, hall, Bool.not_false, Bool.and_self, if_true]
  congr 1
  unfold pad4
  split
  · simp only [String.data]
    rw [foldl_digits_replicate_zero, foldl_digits_natRepr]
  · exact foldl_digits_natRepr n

/-! ### Helper lemmas: tokenization of rendered log lines -/

lemma takeWhile_append_all (p : Char → Bool) (l1 : List Char) (c : Char) (l2 : List Char)
    (h1 : ∀ x ∈ l1, p x = true) (hc : p c = false) :
    (l1 ++ c :: l2).takeWhile p = l1 ∧ (l1 ++ c :: l2).dropWhile p = c :: l2 := by
  induction l1 with
  | nil => simp [List.takeWhile_cons, List.dropWhile_cons, hc]
  | cons a t ih =>
    have ha := h1 a (by simp)
    obtain ⟨ih1, ih2⟩ := ih (fun x hx => h1 x (by simp [hx]))
    simp [List.takeWhile_cons, List.dropWhile_cons, ha, ih1, ih2]

lemma pySplitWs2Data_shape (l1 l2 rest : List Char)
    (h1 : l1 ≠ []) (h1nw : ∀ c ∈ l1, c.isWhitespace = false)
    (h2 : l2 ≠ []) (h2nw : ∀ c ∈ l2, c.isWhitespace = false) :
    ∃ t, pySplitWs2Data (l1 ++ ' ' :: (l2 ++ ' ' :: rest))
      = [String.mk l1, String.mk l2] ++ t ∧ t.length ≤ 1 := by
  have hp1 : ∀ x ∈ l1, (fun c => !c.isWhitespace) x = true := by
    intro x hx; simp [h1nw x hx]
  have hp2 : ∀ x ∈ l2, (fun c => !c.isWhitespace) x = true := by
    intro x hx; simp [h2nw x hx]
  obtain ⟨ht1, hd1⟩ := takeWhile_append_all (fun c => !c.isWhitespace) l1 ' '
    (l2 ++ ' ' :: rest) hp1 (by decide)
  obtain ⟨ht2, hd2⟩ := takeWhile_append_all (fun c => !c.isWhitespace) l2 ' '
    rest hp2 (by decide)
  have hstart : (l1 ++ ' ' :: (l2 ++ ' ' :: rest)).dropWhile Char.isWhitespace
      = l1 ++ ' ' :: (l2 ++ ' ' :: rest) := by
    obtain ⟨a, l1x, rfl⟩ := List.exists_cons_of_ne_nil h1
    rw [List.cons_append, List.dropWhile_cons,
      if_neg (by simp [h1nw a (by simp)]), ← List.cons_append]
  have hne : (l1 ++ ' ' :: (l2 ++ ' ' :: rest)).isEmpty = false := by
    obtain ⟨a, l1x, rfl⟩ := List.exists_cons_of_ne_nil h1
    simp
  have hr1 : (' ' :: (l2 ++ ' ' :: rest)).dropWhile Char.isWhitespace
      = l2 ++ ' ' :: rest := by
    obtain ⟨b, l2x, rfl⟩ := List.exists_cons_of_ne_nil h2
    rw [List.dropWhile_cons, if_pos (by decide), List.cons_append,
      List.dropWhile_cons, if_neg (by simp [h2nw b (by simp)]), ← List.cons_append]
  have hr1ne : (l2 ++ ' ' :: rest).isEmpty = false := by
    obtain ⟨b, l2x, rfl⟩ := List.exists_cons_of_ne_nil h2
    simp
  have hr2 : (' ' :: rest).dropWhile Char.isWhitespace
      = rest.dropWhile Char.isWhitespace := by
    rw [List.dropWhile_cons, if_pos (by decide)]
  unfold pySplitWs2Data
  simp only [hstart, hne, Bool.false_eq_true, if_false, ht1, hd1, hr1, hr1ne, ht2, hd2,
    hr2]
  by_cases hempty : (rest.dropWhile Char.isWhitespace).isEmpty = true
  · refine ⟨[], ?_, by simp⟩
    rw [if_pos hempty]
    simp
  · refine ⟨[String.mk (rest.dropWhile Char.isWhitespace)], ?_, by simp⟩
    rw [if_neg hempty]
    rfl

lemma renderEntry_data (e : Entry) :
    (renderEntry e).data
      = ('[' :: (pad4 e.rowid).data ++ [']'])
        ++ ' ' :: (e.status.data ++ ' ' :: (e.key.data ++ ' ' :: e.message.data)) := by
  simp [renderEntry, List.cons_append, List.append_assoc]

lemma bracket_tok_nonws (n : Nat) :
    ∀ c ∈ '[' :: (pad4 n).data ++ [']'], c.isWhitespace = false := by
  intro c hc
  rcases List.mem_cons.mp hc with h | h
  · subst h; decide
  · rcases List.mem_append.mp h with h2 | h2
    · exact isDigit_not_ws c (pad4_all_digit n c h2)
    · simp at h2; subst h2; decide

lemma pySplitWs2_renderEntry (e : Entry)
    (hne : e.status.data ≠ []) (hws : ∀ c ∈ e.status.data, c.isWhitespace = false) :
    ∃ t, pySplitWs2 (renderEntry e)
      = [String.mk ('[' :: (pad4 e.rowid).data ++ [']']), e.status] ++ t
      ∧ t.length ≤ 1 := by
  have hdata : pySplitWs2 (renderEntry e) = pySplitWs2Data (renderEntry e).data := rfl
  rw [hdata, renderEntry_data e]
  obtain ⟨t, ht, hlen⟩ := pySplitWs2Data_shape
    ('[' :: (pad4 e.rowid).data ++ [']']) e.status.data
    (e.key.data ++ ' ' :: e.message.data)
    (by simp) (bracket_tok_nonws e.rowid) hne hws
  exact ⟨t, ht, hlen⟩

/-- Scanning a rendered entry updates the skip dictionary exactly when the
status verb is OK or SKIP. -/
lemma scanLogLine_renderEntry (skip : List (Nat × String)) (e : Entry)
    (hne : e.status.data ≠ []) (hws : ∀ c ∈ e.status.data, c.isWhitespace = false) :
    scanLogLine skip (renderEntry e)
      = Except.ok (if e.status = "OK" ∨ e.status = "SKIP"
          then assocSetSkip skip e.rowid e.status else skip) := by
  obtain ⟨t, htok, hlen⟩ := pySplitWs2_renderEntry e hne hws
  have hparse : pyIntDigits (pySlice1m1
      (String.mk ('[' :: (pad4 e.rowid).data ++ [']']))) = some e.rowid := by
    have hslice : pySlice1m1 (String.mk ('[' :: (pad4 e.rowid).data ++ [']']))
        = String.mk (pad4 e.rowid).data := by
      unfold pySlice1m1
      simp
    rw [hslice, pyIntDigits_pad4]
  unfold scanLogLine
  rw [htok]
  rw [if_pos (by simp)]
  by_cases hOK : e.status = "OK" ∨ e.status = "SKIP"
  · rw [if_pos (by simpa using hOK), if_pos hOK]
    simp only [List.cons_append, List.nil_append, List.getD_cons_succ, List.getD_cons_zero]
    simp only [List.cons_append] at hparse
    rw [hparse]
  · rw [if_neg (by simpa using hOK), if_neg hOK]

lemma skipContains_iff (l : List (Nat × String)) (i : Nat) :
    skipContains l i = true ↔ i ∈ l.map Prod.fst := by
  simp only [skipContains, List.any_eq_true, List.mem_map, beq_iff_eq]

lemma mem_assocSetSkip (l : List (Nat × String)) (k : Nat) (v : String) (i : Nat) :
    skipContains (assocSetSkip l k v) i = true ↔ (skipContains l i = true ∨ i = k) := by
  rw [skipContains_iff, skipContains_iff]
  unfold assocSetSkip
  split
  · rename_i hk
    have hkeys : (l.map (fun p => if p.1 == k then (k, v) else p)).map Prod.fst
        = l.map Prod.fst := by
      rw [List.map_map]
      apply List.map_congr_left
      intro p hp
      by_cases hpk : p.1 = k
      · simp [hpk]
      · simp [hpk]
    rw [hkeys]
    constructor
    · exact Or.inl
    · rintro (hmem | rfl)
      · exact hmem
      · simp only [List.any_eq_true, beq_iff_eq] at hk
        obtain ⟨p, hp, hpk⟩ := hk
        exact List.mem_map.mpr ⟨p, hp, hpk⟩
  · rw [List.map_append]
    simp

/-- Characterization of the resume scan over a rendered log: starting from
skip dictionary `skip0`, the scan succeeds and its result contains exactly
the indices already present plus the rowids of entries whose status is OK
or SKIP. -/
lemma init_logfile_scan_mem (log : List Entry) (skip0 : List (Nat × String))
    (h : ∀ e ∈ log, e.status.data ≠ [] ∧ ∀ c ∈ e.status.data, c.isWhitespace = false) :
    ∃ sk, init_logfile_scan (log.map renderEntry) skip0 = Except.ok sk ∧
      ∀ i, skipContains sk i = true ↔
        (skipContains skip0 i = true ∨
          ∃ e ∈ log, e.rowid = i ∧ (e.status = "OK" ∨ e.status = "SKIP")) := by
  induction log generalizing skip0 with
  | nil => exact ⟨skip0, rfl, by simp⟩
  | cons e rest ih =>
    obtain ⟨hne, hws⟩ := h e (by simp)
    have hrest : ∀ x ∈ rest, x.status.data ≠ [] ∧
        ∀ c ∈ x.status.data, c.isWhitespace = false := fun x hx => h x (by simp [hx])
    by_cases hOK : e.status = "OK" ∨ e.status = "SKIP"
    · obtain ⟨sk, hsk, hmem⟩ := ih (assocSetSkip skip0 e.rowid e.status) hrest
      refine ⟨sk, ?_, ?_⟩
      · rw [List.map_cons]
        unfold init_logfile_scan
        rw [scanLogLine_renderEntry skip0 e hne hws, if_pos hOK]
        exact hsk
      · intro i
        rw [hmem i, mem_assocSetSkip]
        constructor
        · rintro ((h1 | rfl) | h2)
          · exact Or.inl h1
          · exact Or.inr ⟨e, by simp, rfl, hOK⟩
          · obtain ⟨x, hx, hxi, hxs⟩ := h2
            exact Or.inr ⟨x, by simp [hx], hxi, hxs⟩
        · rintro (h1 | ⟨x, hx, hxi, hxs⟩)
          · exact Or.inl (Or.inl h1)
          · rcases List.mem_cons.mp hx with rfl | hx2
            · exact Or.inl (Or.inr hxi.symm)
            · exact Or.inr ⟨x, hx2, hxi, hxs⟩
    · obtain ⟨sk, hsk, hmem⟩ := ih skip0 hrest
      refine ⟨sk, ?_, ?_⟩
      · rw [List.map_cons]
        unfold init_logfile_scan
        rw [scanLogLine_renderEntry skip0 e hne hws, if_neg hOK]
        exact hsk
      · intro i
        rw [hmem i]
        constructor
        · rintro (h1 | ⟨x, hx, hxi, hxs⟩)
          · exact Or.inl h1
          · exact Or.inr ⟨x, by simp [hx], hxi, hxs⟩
        · rintro (h1 | ⟨x, hx, hxi, hxs⟩)
          · exact Or.inl h1
          · rcases List.mem_cons.mp hx with rfl | hx2
            · exact absurd hxs hOK
            · exact Or.inr ⟨x, hx2, hxi, hxs⟩

/-! ### Helper lemmas: the row loop never touches skipped rows -/

lemma runStep_calls (args : Args) (remote : Remote)
    (mapping : List (String × CodeData)) (addrMapping : List (String × String))
    (cols : FileCols) (skip : List (Nat × String)) (st : RunState) (user : Row)
    (r : Nat) (c : RemoteCall)
    (h : (r, c) ∈ (runStep args remote mapping addrMapping cols skip st user).calls) :
    (r, c) ∈ st.calls ∨ skipContains skip r = false := by
  unfold runStep at h
  split at h
  · exact Or.inl h
  · simp only [] at h
    split at h
    · exact Or.inl h
    · split at h
      · exact Or.inl h
      · rename_i hskip
        rcases List.mem_append.mp h with h1 | h1
        · exact Or.inl h1
        · obtain ⟨c0, hc0, heq⟩ := List.mem_map.mp h1
          have hr : r = st.rowid + 1 := by
            have := congrArg Prod.fst heq
            simpa using this.symm
          right
          rw [hr]
          show (skip.any fun p => p.1 == st.rowid + 1) = false
          exact (Bool.not_eq_true _) ▸ hskip

lemma foldl_runStep_calls (args : Args) (remote : Remote)
    (mapping : List (String × CodeData)) (addrMapping : List (String × String))
    (cols : FileCols) (skip : List (Nat × String)) (rows : List Row) :
    ∀ (st : RunState) (r : Nat) (c : RemoteCall),
      (r, c) ∈ (rows.foldl (runStep args remote mapping addrMapping cols skip) st).calls →
      (r, c) ∈ st.calls ∨ skipContains skip r = false := by
  induction rows with
  | nil => intro st r c h; exact Or.inl h
  | cons row rest ih =>
    intro st r c h
    rcases ih _ r c h with h1 | h1
    · exact runStep_calls args remote mapping addrMapping cols skip st row r c h1
    · exact Or.inr h1

/-! ### Concrete fixtures used by claim theorems and witnesses -/

/-- A five-row log in which row 3 failed and the others succeeded. -/
def exLog5 : List Entry :=
  [{ rowid := 1, status := "OK", key := "a", message := "x" },
   { rowid := 2, status := "OK", key := "b", message := "x" },
   { rowid := 3, status := "ERROR", key := "c", message := "x" },
   { rowid := 4, status := "OK", key := "d", message := "x" },
   { rowid := 5, status := "OK", key := "e", message := "x" }]

/-- A remote contact with one preferred, unsubscribed-status-unset email. -/
def exPersonBase : Person :=
  { van_id := 7, emails := [{ isPreferred := true, subscriptionStatus := none }] }

/-- A benign remote: every lookup finds `exPersonBase`, every mutation
succeeds, no codes applied. -/
def exRemoteOk : Remote :=
  { lookup := fun _ => .ok (some exPersonBase)
    findOrCreate := fun _ => .ok exPersonBase
    updateEmails := fun _ _ => .ok ()
    updatePhones := fun _ _ => .ok ()
    applyActivistCode := fun _ _ => .ok ()
    activistCodes := fun _ => [] }

/-- Default live-mode arguments covering every row. -/
def exArgs : Args := { start_row := 1, end_row := 1000000, update := false, dryrun := false }

/-- Five one-column dataset rows. -/
def exRows5 : List Row :=
  [[("email", "a")], [("email", "b")], [("email", "c")], [("email", "d")], [("email", "e")]]

/-! ### Claim theorems -/

/-- C1: if every entry of the prior log has terminal status OK, the resume
scan succeeds and puts every logged rowid in the skip set, and a second
`sync_file` run over any dataset with that skip set performs no remote
call at all (in particular no mutation) for any logged rowid — those rows
are skipped before the lookup. -/
theorem C1_resume_second_run_skips_ok_rows
    (log : List Entry) (args : Args) (remote : Remote)
    (mapping : List (String × CodeData)) (addrMapping : List (String × String))
    (fieldnames : List String) (rows : List Row)
    (hok : ∀ e ∈ log, e.status = "OK")
    (hemail : fieldnames.contains "email" = true) :
    ∃ sk, init_logfile_scan (log.map renderEntry) [] = Except.ok sk ∧
      (∀ e ∈ log, skipContains sk e.rowid = true) ∧
      ∃ res, sync_file args remote mapping addrMapping fieldnames rows sk
          = Except.ok res ∧
        ∀ r c, (r, c) ∈ res.calls → ∀ e ∈ log, e.rowid ≠ r := by
  obtain ⟨sk, hsk, hmem⟩ := init_logfile_scan_mem log []
    (by intro e he; rw [hok e he]; exact ⟨by decide, by decide⟩)
  refine ⟨sk, hsk, ?_, ?_⟩
  · intro e he
    rw [hmem]
    exact Or.inr ⟨e, he, rfl, Or.inl (hok e he)⟩
  · unfold sync_file
    rw [if_neg (by simpa using hemail)]
    refine ⟨_, rfl, ?_⟩
    intro r c hrc e he hre
    rcases foldl_runStep_calls args remote mapping
      (addrMapping.filter (fun p => fieldnames.contains p.1)) (mkCols fieldnames)
      sk rows _ r c hrc with h1 | h1
    · simp at h1
    · have htrue : skipContains sk r = true := by
        rw [hmem]
        exact Or.inr ⟨e, he, hre, Or.inl (hok e he)⟩
      rw [h1] at htrue
      exact absurd htrue (by simp)

/-- Witness for C1 at a concrete log, dataset and remote. -/
theorem C1_resume_second_run_skips_ok_rows_witness :
    (∀ e ∈ exLog5.take 2, e.status = "OK") ∧
    ((["email"] : List String).contains "email" = true) ∧
    ∃ sk, init_logfile_scan ((exLog5.take 2).map renderEntry) [] = Except.ok sk ∧
      (∀ e ∈ exLog5.take 2, skipContains sk e.rowid = true) ∧
      ∃ res, sync_file exArgs exRemoteOk [] [] ["email"] exRows5 sk
          = Except.ok res ∧
        ∀ r c, (r, c) ∈ res.calls → ∀ e ∈ exLog5.take 2, e.rowid ≠ r :=
  ⟨by decide, by decide,
    C1_resume_second_run_skips_ok_rows (exLog5.take 2) exArgs exRemoteOk [] [] ["email"]
      exRows5 (by decide) (by decide)⟩

/-- C2: a row index enters the resume skip set iff some log entry for that
index has status OK or SKIP (statuses ERROR, NOT_FOUND, MISMATCH_ID and
DRYRUN are not skipped); concretely, for a log over rows 1..5 with row 3
ERROR and the rest OK, the skip set is 1,2,4,5 and a resumed run
re-processes exactly row 3. -/
theorem C2_resume_skip_set_iff
    (log : List Entry)
    (hs : ∀ e ∈ log, e.status ∈
      (["OK", "SKIP", "DRYRUN", "ERROR", "NOT_FOUND", "MISMATCH_ID"] : List String)) :
    (∃ sk, init_logfile_scan (log.map renderEntry) [] = Except.ok sk ∧
      ∀ i, skipContains sk i = true ↔
        ∃ e ∈ log, e.rowid = i ∧ (e.status = "OK" ∨ e.status = "SKIP")) ∧
    init_logfile_scan (exLog5.map renderEntry) []
      = Except.ok [(1, "OK"), (2, "OK"), (4, "OK"), (5, "OK")] ∧
    ∃ res, sync_file exArgs exRemoteOk [] [] ["email"] exRows5
        [(1, "OK"), (2, "OK"), (4, "OK"), (5, "OK")] = Except.ok res ∧
      res.entries.map Entry.rowid = [3] := by
  refine ⟨?_, by rfl, ⟨_, rfl, by rfl⟩⟩
  have hwf : ∀ e ∈ log, e.status.data ≠ [] ∧
      ∀ c ∈ e.status.data, c.isWhitespace = false := by
    intro e he
    have hmem := hs e he
    simp only [List.mem_cons, List.not_mem_nil, or_false] at hmem
    rcases hmem with h | h | h | h | h | h <;> rw [h] <;> exact ⟨by decide, by decide⟩
  obtain ⟨sk, hsk, hmem⟩ := init_logfile_scan_mem log [] hwf
  refine ⟨sk, hsk, fun i => (hmem i).trans ?_⟩
  simp [skipContains]

/-- Witness for C2 at the concrete five-row log. -/
theorem C2_resume_skip_set_iff_witness :
    (∀ e ∈ exLog5, e.status ∈
      (["OK", "SKIP", "DRYRUN", "ERROR", "NOT_FOUND", "MISMATCH_ID"] : List String)) ∧
    ((∃ sk, init_logfile_scan (exLog5.map renderEntry) [] = Except.ok sk ∧
      ∀ i, skipContains sk i = true ↔
        ∃ e ∈ exLog5, e.rowid = i ∧ (e.status = "OK" ∨ e.status = "SKIP")) ∧
    init_logfile_scan (exLog5.map renderEntry) []
      = Except.ok [(1, "OK"), (2, "OK"), (4, "OK"), (5, "OK")] ∧
    ∃ res, sync_file exArgs exRemoteOk [] [] ["email"] exRows5
        [(1, "OK"), (2, "OK"), (4, "OK"), (5, "OK")] = Except.ok res ∧
      res.entries.map Entry.rowid = [3]) :=
  ⟨by decide, C2_resume_skip_set_iff exLog5 (by decide)⟩

/-- A remote whose lookup raises an AttributeError on every row. -/
def exRemoteLookupFault : Remote := { exRemoteOk with lookup := fun _ => .error "boom" }

/-- C3 (code bug): a row whose remote lookup raises an AttributeError
produces TWO checkpoint entries with the same rowid — the ERROR entry,
and, because the exception handler does not skip to the next row, a
terminal OK entry written after the create path runs (which also issues a
find-or-create mutation).  This contradicts the one-entry-per-row
invariant. -/
theorem C3_lookup_fault_row_logs_two_entries :
    (processRow exArgs exRemoteLookupFault [] [] ⟨false, false, false⟩ 5
        [("email", "x@y")]).entries.map (fun en => (en.rowid, en.status))
      = [(5, "ERROR"), (5, "OK")] ∧
    RemoteCall.findOrCreate (buildPersonFields [] [("email", "x@y")] [])
      ∈ (processRow exArgs exRemoteLookupFault [] [] ⟨false, false, false⟩ 5
        [("email", "x@y")]).calls := by
  constructor
  · rfl
  · show _ ∈ [RemoteCall.lookup "x@y",
      RemoteCall.findOrCreate (buildPersonFields [] [("email", "x@y")] [])]
    simp

/-! ### Dry-run lemmas -/

lemma update_or_create_dryrun (args : Args) (remote : Remote)
    (addrMapping : List (String × String)) (user : Row) (h : args.dryrun = true) :
    update_or_create args remote addrMapping user
      = { person := none, acts := (get_user_phones user).2, calls := [], fault := none } := by
  unfold update_or_create
  rw [h]
  rfl

lemma sync_phones_dryrun (args : Args) (remote : Remote) (person : Person)
    (user : Row) (h : args.dryrun = true) :
    sync_phones args remote person user
      = { acts := (get_user_phones user).2, calls := [], fault := none } := by
  unfold sync_phones
  rw [h]
  simp

lemma sync_email_subscription_dryrun_calls (args : Args) (remote : Remote)
    (person : Person) (user : Row) (h : args.dryrun = true) :
    (sync_email_subscription args remote person user).calls = [] := by
  unfold sync_email_subscription
  rw [h]
  cases findPreferred person.emails
  · rfl
  · simp only []
    split_ifs <;> simp_all

lemma applyRemaining_dryrun_calls (args : Args) (remote : Remote) (vanId : Nat)
    (rest : List (Nat × CodeData)) (st : StepResult) (h : args.dryrun = true) :
    (applyRemaining args remote vanId rest st).calls = st.calls := by
  induction rest generalizing st with
  | nil => rfl
  | cons p rest ih =>
    obtain ⟨i, cd⟩ := p
    cases cd with
    | generic j name => exact ih st
    | activist j name =>
      simp only [applyRemaining, h, if_true]
      exact ih _

lemma sync_tags_dryrun_calls (args : Args) (remote : Remote)
    (mapping : List (String × CodeData)) (person : Person) (user : Row)
    (h : args.dryrun = true) :
    ∀ c ∈ (sync_tags args remote mapping person user).calls, isMutation c = false := by
  intro c hc
  unfold sync_tags at hc
  simp only [] at hc
  split at hc
  · rw [applyRemaining_dryrun_calls args remote _ _ _ h] at hc
    simp at hc
    rw [hc]
    rfl
  · simp at hc

lemma seq_calls (a b : StepResult) :
    (a.seq b).calls = if a.fault.isSome then a.calls else a.calls ++ b.calls := by
  unfold StepResult.seq
  split <;> simp_all

lemma seq_acts (a b : StepResult) :
    (a.seq b).acts = if a.fault.isSome then a.acts else a.acts ++ b.acts := by
  unfold StepResult.seq
  split <;> simp_all

lemma seq_fault (a b : StepResult) :
    (a.seq b).fault = if a.fault.isSome then a.fault else b.fault := by
  unfold StepResult.seq
  split <;> simp_all

lemma deltaSteps_dryrun_calls (args : Args) (remote : Remote) (cols : FileCols)
    (p : Person) (user : Row) (h : args.dryrun = true) :
    (deltaSteps args remote cols p user).calls = [] := by
  unfold deltaSteps
  simp only []
  set st1 := if cols.check_email_subscription_status = true then
      stNil.seq (sync_email_subscription args remote p user) else stNil with hst1
  have h1 : st1.calls = [] := by
    rw [hst1]
    split
    · rw [seq_calls]
      simp [stNil, sync_email_subscription_dryrun_calls args remote p user h]
    · rfl
  by_cases hf : st1.fault.isSome = true
  · rw [if_pos hf]
    exact h1
  · rw [if_neg hf]
    by_cases hp : cols.check_phones = true
    · rw [if_pos hp, seq_calls, if_neg hf, h1, sync_phones_dryrun args remote p user h]
      rfl
    · rw [if_neg hp]
      exact h1

lemma mainStep_dryrun_calls (args : Args) (remote : Remote)
    (addrMapping : List (String × String)) (cols : FileCols)
    (person0 : Option Person) (user : Row) (h : args.dryrun = true) :
    (mainStep args remote addrMapping cols person0 user).2.calls = [] := by
  cases person0 with
  | none => simp [mainStep, update_or_create_dryrun args remote addrMapping user h]
  | some p =>
    by_cases hu : args.update = true
    · simp [mainStep, hu, update_or_create_dryrun args remote addrMapping user h]
    · simp [mainStep, hu, deltaSteps_dryrun_calls args remote cols p user h]

lemma tagStep_dryrun_calls (args : Args) (remote : Remote)
    (mapping : List (String × CodeData)) (cols : FileCols)
    (main : Option Person × StepResult) (user : Row) (h : args.dryrun = true)
    (hm : main.2.calls = []) :
    ∀ c ∈ (tagStep args remote mapping cols main user).calls, isMutation c = false := by
  intro c hc
  unfold tagStep at hc
  split at hc
  · rw [hm] at hc
    simp at hc
  · split at hc
    · split at hc
      · rw [seq_calls] at hc
        split at hc
        · rw [hm] at hc
          simp at hc
        · rw [hm] at hc
          simp only [List.nil_append] at hc
          exact sync_tags_dryrun_calls args remote mapping _ user h c hc
      · rw [hm] at hc
        simp at hc
    · rw [hm] at hc
      simp at hc

/-- C5: with dryrun set, processing a row makes no remote mutation call at
all — the only remote calls are the lookup and the applied-codes read —
and the log layer rewrites a would-be OK status to DRYRUN before the entry
is written. -/
theorem C5_dryrun_no_mutation (args : Args) (remote : Remote)
    (mapping : List (String × CodeData)) (addrMapping : List (String × String))
    (cols : FileCols) (rowid : Nat) (user : Row)
    (h : args.dryrun = true) :
    (∀ c ∈ (processRow args remote mapping addrMapping cols rowid user).calls,
      isMutation c = false) ∧
    (∀ rid key msg, (log_actions args.dryrun rid "OK" key msg).status = "DRYRUN") := by
  constructor
  · intro c hc
    unfold processRow at hc
    simp only [] at hc
    have hmain := mainStep_dryrun_calls args remote addrMapping cols
      (match remote.lookup (user.getD "email" "") with
        | .ok p => p | .error _ => none) user h
    have htag := tagStep_dryrun_calls args remote mapping cols
      (mainStep args remote addrMapping cols
        (match remote.lookup (user.getD "email" "") with
          | .ok p => p | .error _ => none) user) user h hmain
    split at hc <;>
      (rcases List.mem_cons.mp hc with rfl | hmem
       · rfl
       · exact htag c hmem)
  · intro rid key msg
    rw [h]
    rfl

/-- Witness for C5 at a concrete dry-run configuration. -/
theorem C5_dryrun_no_mutation_witness :
    ({ exArgs with dryrun := true } : Args).dryrun = true ∧
    ((∀ c ∈ (processRow { exArgs with dryrun := true } exRemoteOk [] []
        ⟨true, true, true⟩ 1 [("email", "x@y")]).calls, isMutation c = false) ∧
     (∀ rid key msg,
        (log_actions ({ exArgs with dryrun := true } : Args).dryrun rid "OK" key msg).status
          = "DRYRUN")) :=
  ⟨rfl, C5_dryrun_no_mutation { exArgs with dryrun := true } exRemoteOk [] []
    ⟨true, true, true⟩ 1 [("email", "x@y")] rfl⟩

/-! ### C4: fault containment -/

/-- A remote whose email-subscription update raises an EAHTTPException. -/
def exRemoteSubFault : Remote :=
  { exRemoteOk with updateEmails := fun _ _ => .error "500 Server Error" }

/-- C4 counterexample: a remote mutation fault while applying the
subscription delta is NOT caught — the row processing aborts with the
exception (terminating the run) and no checkpoint entry is written, so
the claim that every delta-application fault is caught and the process
never terminates on a per-row fault is false. -/
theorem C4_subscription_fault_terminates :
    (processRow exArgs exRemoteSubFault [] [] ⟨true, false, false⟩ 1
        [("email", "x@y"), ("can2_subscription_status", "unsubscribed")]).fault
      = some "500 Server Error" ∧
    (processRow exArgs exRemoteSubFault [] [] ⟨true, false, false⟩ 1
        [("email", "x@y"), ("can2_subscription_status", "unsubscribed")]).entries
      = [] := ⟨rfl, rfl⟩

lemma stNil_fault : stNil.fault = none := rfl

lemma sync_phones_fault_none (args : Args) (remote : Remote) (person : Person)
    (user : Row) : (sync_phones args remote person user).fault = none := by
  unfold sync_phones
  simp only []
  split
  · split
    · cases remote.updatePhones person.van_id (get_user_phones user).1 <;> rfl
    · rfl
  · rfl

lemma applyRemaining_calls_mono (args : Args) (remote : Remote) (vanId : Nat)
    (rest : List (Nat × CodeData)) (st : StepResult) (c : RemoteCall)
    (h : c ∈ st.calls) :
    c ∈ (applyRemaining args remote vanId rest st).calls := by
  induction rest generalizing st with
  | nil => exact h
  | cons q rest ih =>
    obtain ⟨i, cd⟩ := q
    cases cd with
    | generic j name => exact ih st h
    | activist j name =>
      by_cases hd : args.dryrun = true
      · simp only [applyRemaining, hd, if_true]
        exact ih _ h
      · simp only [applyRemaining]
        rw [if_neg hd]
        cases hap : remote.applyActivistCode i vanId with
        | ok u =>
          simp only [hap]
          exact ih _ (by simp [h])
        | error ex =>
          simp only [hap]
          simp [h]

lemma sync_tags_lists_codes (args : Args) (remote : Remote)
    (mapping : List (String × CodeData)) (person : Person) (user : Row)
    (hne : codeByName mapping (user.getD "can2_user_tags" "") ≠ []) :
    RemoteCall.listActivistCodes person.van_id
      ∈ (sync_tags args remote mapping person user).calls := by
  unfold sync_tags
  simp only []
  rw [if_pos (by simpa [List.length_pos] using hne)]
  exact applyRemaining_calls_mono args remote person.van_id _ _ _ (by simp)

/-- C4 amended: only the phone delta catches remote mutation faults — it
never faults, appends the exception text to the row's labels, and the tag
delta is still attempted afterwards; a mutation fault raised in the
subscription delta propagates out of the row (terminating the run with no
checkpoint entry for the row). -/
theorem C4_only_phone_delta_contains_faults :
    (∀ (args : Args) (remote : Remote) (person : Person) (user : Row),
      (sync_phones args remote person user).fault = none) ∧
    (∀ (args : Args) (remote : Remote) (person : Person) (user : Row) (ex : String),
      args.dryrun = false →
      (get_user_phones user).1.length > 0 →
      remote.updatePhones person.van_id (get_user_phones user).1 = Except.error ex →
      ex ∈ (sync_phones args remote person user).acts) ∧
    (∀ (args : Args) (remote : Remote) (mapping : List (String × CodeData))
        (addrMapping : List (String × String)) (cols : FileCols) (rowid : Nat)
        (user : Row) (p : Person) (ex : String),
      remote.lookup (user.getD "email" "") = Except.ok (some p) →
      args.update = false →
      cols.check_email_subscription_status = true →
      (sync_email_subscription args remote p user).fault = some ex →
      (processRow args remote mapping addrMapping cols rowid user).fault = some ex ∧
      (processRow args remote mapping addrMapping cols rowid user).entries = []) ∧
    (∀ (args : Args) (remote : Remote) (mapping : List (String × CodeData))
        (addrMapping : List (String × String)) (cols : FileCols) (rowid : Nat)
        (user : Row) (p : Person),
      remote.lookup (user.getD "email" "") = Except.ok (some p) →
      args.update = false →
      cols.check_email_subscription_status = false →
      cols.check_tags = true →
      codeByName mapping (user.getD "can2_user_tags" "") ≠ [] →
      RemoteCall.listActivistCodes p.van_id
        ∈ (processRow args remote mapping addrMapping cols rowid user).calls) := by
  refine ⟨sync_phones_fault_none, ?_, ?_, ?_⟩
  · intro args remote person user ex hd hph hup
    unfold sync_phones
    simp only []
    rw [if_pos hph, hd]
    rw [if_pos (by decide), hup]
    simp
  · intro args remote mapping addrMapping cols rowid user p ex hlk hupd hsub hfault
    have hdelta : (deltaSteps args remote cols p user).fault = some ex ∧
        (deltaSteps args remote cols p user)
          = stNil.seq (sync_email_subscription args remote p user) := by
      unfold deltaSteps
      simp only []
      rw [if_pos hsub]
      have hf : (stNil.seq (sync_email_subscription args remote p user)).fault
          = some ex := by
        rw [seq_fault]
        simpa [stNil] using hfault
      rw [if_pos (by simp [hf])]
      exact ⟨hf, rfl⟩
    have hmain : mainStep args remote addrMapping cols (some p) user
        = (some p, deltaSteps args remote cols p user) := by
      unfold mainStep
      rw [hupd]
      rfl
    have htag : tagStep args remote mapping cols
        (mainStep args remote addrMapping cols (some p) user) user
          = deltaSteps args remote cols p user := by
      rw [hmain]
      unfold tagStep
      rw [if_pos (by simp [hdelta.1])]
    constructor
    · unfold processRow
      simp only []
      rw [hlk]
      simp only []
      rw [htag]
      rw [if_pos (by simp [hdelta.1])]
      simp [hdelta.1]
    · unfold processRow
      simp only []
      rw [hlk]
      simp only []
      rw [htag]
      rw [if_pos (by simp [hdelta.1])]
  · intro args remote mapping addrMapping cols rowid user p hlk hupd hsub htags hne
    have hdelta : (deltaSteps args remote cols p user).fault = none := by
      unfold deltaSteps
      simp only []
      rw [if_neg (by simp [hsub, stNil_fault])]
      split
      · rw [seq_fault, if_neg (by simp [hsub, stNil_fault]), sync_phones_fault_none]
      · simp [hsub, stNil_fault]
    have hmain : mainStep args remote addrMapping cols (some p) user
        = (some p, deltaSteps args remote cols p user) := by
      unfold mainStep
      rw [hupd]
      rfl
    have htag : RemoteCall.listActivistCodes p.van_id
        ∈ (tagStep args remote mapping cols
            (mainStep args remote addrMapping cols (some p) user) user).calls := by
      rw [hmain]
      unfold tagStep
      rw [if_neg (by simp [hdelta])]
      simp only []
      rw [if_pos htags, seq_calls, if_neg (by simp [hdelta])]
      exact List.mem_append_right _
        (sync_tags_lists_codes args remote mapping p user hne)
    unfold processRow
    simp only []
    rw [hlk]
    simp only []
    split <;> exact List.mem_cons_of_mem _ htag

/-- A remote whose phone update raises an EAHTTPException. -/
def exRemotePhoneFault : Remote :=
  { exRemoteOk with updatePhones := fun _ _ => .error "502 Bad Gateway" }

/-- A tag mapping with one activist-code rule. -/
def exMapping : List (String × CodeData) :=
  [("Phone_Bank", CodeData.activist 42 "Phoner")]

/-- Witness for C4 amended at concrete faulting remotes. -/
theorem C4_only_phone_delta_contains_faults_witness :
    (sync_phones exArgs exRemotePhoneFault exPersonBase
        [("can2_phone", "+15551234567")]).fault = none ∧
    "502 Bad Gateway" ∈ (sync_phones exArgs exRemotePhoneFault exPersonBase
        [("can2_phone", "+15551234567")]).acts ∧
    (processRow exArgs exRemoteSubFault [] [] ⟨true, false, false⟩ 1
        [("email", "x@y"), ("can2_subscription_status", "unsubscribed")]).fault
      = some "500 Server Error" ∧
    RemoteCall.listActivistCodes 7
      ∈ (processRow exArgs exRemoteOk exMapping [] ⟨false, false, true⟩ 1
          [("email", "x@y"), ("can2_user_tags", "Phone_Bank")]).calls :=
  ⟨C4_only_phone_delta_contains_faults.1 exArgs exRemotePhoneFault exPersonBase
      [("can2_phone", "+15551234567")],
   C4_only_phone_delta_contains_faults.2.1 exArgs exRemotePhoneFault exPersonBase
      [("can2_phone", "+15551234567")] "502 Bad Gateway" rfl (by decide) rfl,
   (C4_only_phone_delta_contains_faults.2.2.1 exArgs exRemoteSubFault [] []
      ⟨true, false, false⟩ 1 [("email", "x@y"), ("can2_subscription_status", "unsubscribed")]
      exPersonBase "500 Server Error" rfl rfl rfl rfl).1,
   C4_only_phone_delta_contains_faults.2.2.2 exArgs exRemoteOk exMapping []
      ⟨false, false, true⟩ 1 [("email", "x@y"), ("can2_user_tags", "Phone_Bank")]
      exPersonBase rfl rfl rfl rfl (by decide)⟩

/-! ### C7: subscription delta -/

/-- A remote contact whose preferred email is already subscribed ("S"). -/
def exPersonS : Person :=
  { van_id := 3, emails := [{ isPreferred := true, subscriptionStatus := some "S" }] }

/-- C7 counterexample: the row declares unsubscribed and the remote
preferred email's state is "S" — not "unsubscribed" — yet no update is
pushed (no call, no label): the code only ever pushes when the remote
state is unset. -/
theorem C7_remote_S_row_unsubscribed_noop :
    (findPreferred exPersonS.emails).map (fun e => e.subscriptionStatus)
      = some (some "S") ∧
    Row.getD [("can2_subscription_status", "unsubscribed")]
      "can2_subscription_status" "" = "unsubscribed" ∧
    sync_email_subscription exArgs exRemoteOk exPersonS
        [("can2_subscription_status", "unsubscribed")]
      = { acts := [], calls := [], fault := none } := ⟨rfl, rfl, rfl⟩

/-- C7 amended: the subscription delta pushes an update exactly when the
remote preferred email's subscription state is unset (falsy, normalized to
"None"): then a row declaring unsubscribed pushes isSubscribed := false
and any other row value pushes isSubscribed := true; when the remote state
is set to anything (e.g. "S" or "U"), nothing is pushed regardless of the
row. -/
theorem C7_subscription_update_iff_remote_unset
    (args : Args) (remote : Remote) (person : Person) (user : Row)
    (pref : ContactEmail)
    (hpref : findPreferred person.emails = some pref)
    (hok : ∀ v em, remote.updateEmails v em = Except.ok ()) :
    (orNoneStr pref.subscriptionStatus ≠ "None" →
      sync_email_subscription args remote person user
        = { acts := [], calls := [], fault := none }) ∧
    (orNoneStr pref.subscriptionStatus = "None" → args.dryrun = false →
      (user.getD "can2_subscription_status" "" = "unsubscribed" →
        (sync_email_subscription args remote person user).calls
          = [RemoteCall.updateEmails person.van_id
              { pref with isSubscribed := some false }]) ∧
      (user.getD "can2_subscription_status" "" ≠ "unsubscribed" →
        (sync_email_subscription args remote person user).calls
          = [RemoteCall.updateEmails person.van_id
              { pref with isSubscribed := some true }])) := by
  unfold sync_email_subscription
  rw [hpref]
  dsimp only
  constructor
  · intro hst
    split_ifs <;> simp_all
  · intro hst hd
    constructor
    · intro hrow
      rw [if_pos hrow, if_pos hst, hd]
      rw [if_pos (by decide), hok]
    · intro hrow
      rw [if_neg hrow, if_pos hst, hd]
      rw [if_pos (by decide), hok]

/-- Witness for C7 amended: remote state unset, row unsubscribed — one
unsubscribe push. -/
theorem C7_subscription_update_iff_remote_unset_witness :
    findPreferred exPersonBase.emails
      = some { isPreferred := true, subscriptionStatus := none } ∧
    (sync_email_subscription exArgs exRemoteOk exPersonBase
        [("can2_subscription_status", "unsubscribed")]).calls
      = [RemoteCall.updateEmails 7
          { isPreferred := true, subscriptionStatus := none,
            isSubscribed := some false }] :=
  ⟨rfl,
   ((C7_subscription_update_iff_remote_unset exArgs exRemoteOk exPersonBase
      [("can2_subscription_status", "unsubscribed")]
      { isPreferred := true, subscriptionStatus := none }
      rfl (fun _ _ => rfl)).2 rfl rfl).1 rfl⟩

/-! ### C6: dry-run vs live decision equivalence -/

/-- A remote on which no contact is ever found (create-on-miss path). -/
def exRemoteNotFound : Remote := { exRemoteOk with lookup := fun _ => .ok none }

/-- C6 counterexample: same row, same remote state — the live run's label
list contains the applied tag name but the dry run's does not, because the
dry-run create returns no contact and the tag delta is skipped. -/
theorem C6_create_path_labels_differ :
    (processRow { exArgs with dryrun := false } exRemoteNotFound exMapping []
        ⟨false, false, true⟩ 1
        [("email", "x@y"), ("can2_user_tags", "Phone_Bank")]).acts
      = ["create", "Phoner"] ∧
    (processRow { exArgs with dryrun := true } exRemoteNotFound exMapping []
        ⟨false, false, true⟩ 1
        [("email", "x@y"), ("can2_user_tags", "Phone_Bank")]).acts
      = ["create"] := ⟨rfl, rfl⟩

lemma sync_email_subscription_acts_fault (a1 a2 : Args) (remote : Remote)
    (p : Person) (user : Row)
    (hup : ∀ v em, remote.updateEmails v em = Except.ok ()) :
    (sync_email_subscription a1 remote p user).acts
      = (sync_email_subscription a2 remote p user).acts ∧
    (sync_email_subscription a1 remote p user).fault
      = (sync_email_subscription a2 remote p user).fault := by
  unfold sync_email_subscription
  cases findPreferred p.emails
  · exact ⟨rfl, rfl⟩
  · dsimp only
    split_ifs <;> simp [hup]

lemma sync_phones_acts_fault (a1 a2 : Args) (remote : Remote)
    (p : Person) (user : Row)
    (hph : ∀ v ph, remote.updatePhones v ph = Except.ok ()) :
    (sync_phones a1 remote p user).acts = (sync_phones a2 remote p user).acts ∧
    (sync_phones a1 remote p user).fault = (sync_phones a2 remote p user).fault := by
  unfold sync_phones
  dsimp only
  split_ifs <;> simp [hph]

lemma applyRemaining_acts_fault (a1 a2 : Args) (remote : Remote) (vanId : Nat)
    (rest : List (Nat × CodeData)) (st1 st2 : StepResult)
    (hacts : st1.acts = st2.acts) (hf1 : st1.fault = none) (hf2 : st2.fault = none)
    (hap : ∀ i v, remote.applyActivistCode i v = Except.ok ()) :
    (applyRemaining a1 remote vanId rest st1).acts
      = (applyRemaining a2 remote vanId rest st2).acts ∧
    (applyRemaining a1 remote vanId rest st1).fault = none ∧
    (applyRemaining a2 remote vanId rest st2).fault = none := by
  induction rest generalizing st1 st2 with
  | nil => exact ⟨hacts, hf1, hf2⟩
  | cons q rest ih =>
    obtain ⟨i, cd⟩ := q
    cases cd with
    | generic j name => exact ih st1 st2 hacts hf1 hf2
    | activist j name =>
      have step : ∀ (a : Args) (st : StepResult), st.fault = none →
          applyRemaining a remote vanId ((i, CodeData.activist j name) :: rest) st
            = applyRemaining a remote vanId rest
                (if a.dryrun then { st with acts := st.acts ++ [name] }
                 else { st with
                   acts := st.acts ++ [name]
                   calls := st.calls ++ [.applyActivistCode i vanId] }) := by
        intro a st hf
        by_cases hd : a.dryrun = true
        · simp only [applyRemaining, hd, if_true]
        · simp only [applyRemaining, hap]
          rw [if_neg hd, if_neg hd]
      rw [step a1 st1 hf1, step a2 st2 hf2]
      apply ih <;> split_ifs <;> simp [hacts, hf1, hf2]

lemma sync_tags_acts_fault (a1 a2 : Args) (remote : Remote)
    (mapping : List (String × CodeData)) (p : Person) (user : Row)
    (hap : ∀ i v, remote.applyActivistCode i v = Except.ok ()) :
    (sync_tags a1 remote mapping p user).acts
      = (sync_tags a2 remote mapping p user).acts ∧
    (sync_tags a1 remote mapping p user).fault = none ∧
    (sync_tags a2 remote mapping p user).fault = none := by
  unfold sync_tags
  dsimp only
  split_ifs
  · exact applyRemaining_acts_fault a1 a2 remote p.van_id _ _ _ rfl rfl rfl hap
  · exact ⟨rfl, rfl, rfl⟩

lemma deltaSteps_acts_fault (a1 a2 : Args) (remote : Remote) (cols : FileCols)
    (p : Person) (user : Row)
    (hup : ∀ v em, remote.updateEmails v em = Except.ok ())
    (hph : ∀ v ph, remote.updatePhones v ph = Except.ok ()) :
    (deltaSteps a1 remote cols p user).acts = (deltaSteps a2 remote cols p user).acts ∧
    (deltaSteps a1 remote cols p user).fault
      = (deltaSteps a2 remote cols p user).fault := by
  obtain ⟨hea, hef⟩ := sync_email_subscription_acts_fault a1 a2 remote p user hup
  obtain ⟨hpa, hpf⟩ := sync_phones_acts_fault a1 a2 remote p user hph
  unfold deltaSteps
  dsimp only
  set s1 := (if cols.check_email_subscription_status = true then
      stNil.seq (sync_email_subscription a1 remote p user) else stNil) with hs1
  set s2 := (if cols.check_email_subscription_status = true then
      stNil.seq (sync_email_subscription a2 remote p user) else stNil) with hs2
  have hst1a : s1.acts = s2.acts := by
    rw [hs1, hs2]
    split_ifs with hc
    · rw [seq_acts, seq_acts, stNil_fault]
      simpa [stNil] using hea
    · rfl
  have hst1f : s1.fault = s2.fault := by
    rw [hs1, hs2]
    split_ifs with hc
    · rw [seq_fault, seq_fault, stNil_fault]
      simpa [stNil] using hef
    · rfl
  by_cases hf : s1.fault.isSome = true
  · rw [if_pos hf, if_pos (show s2.fault.isSome = true by rw [← hst1f]; exact hf)]
    exact ⟨hst1a, hst1f⟩
  · rw [if_neg hf, if_neg (show ¬(s2.fault.isSome = true) by rw [← hst1f]; exact hf)]
    split_ifs with hp
    · refine ⟨?_, ?_⟩
      · rw [seq_acts, seq_acts, if_neg hf,
          if_neg (show ¬(s2.fault.isSome = true) by rw [← hst1f]; exact hf)]
        rw [hst1a, hpa]
      · rw [seq_fault, seq_fault, if_neg hf,
          if_neg (show ¬(s2.fault.isSome = true) by rw [← hst1f]; exact hf)]
        rw [hpf]
    · exact ⟨hst1a, hst1f⟩

/-- C6 amended: on the found-without-update path, when every live
mutation call succeeds, a dry run and a live run of the same row against
the same remote state accumulate identical action labels, and the dry
run's log entries are exactly the live run's with any OK status rewritten
to DRYRUN.  (On the create/update path the runs can differ: the dry-run
create returns no contact, so tag labels appear only live — see the
counterexample.) -/
theorem C6_dryrun_live_equivalent_on_found_path
    (args : Args) (remote : Remote) (mapping : List (String × CodeData))
    (addrMapping : List (String × String)) (cols : FileCols) (rowid : Nat)
    (user : Row) (p : Person)
    (hlk : remote.lookup (user.getD "email" "") = Except.ok (some p))
    (hupd : args.update = false)
    (hup : ∀ v em, remote.updateEmails v em = Except.ok ())
    (hph : ∀ v ph, remote.updatePhones v ph = Except.ok ())
    (hap : ∀ i v, remote.applyActivistCode i v = Except.ok ()) :
    (processRow { args with dryrun := true } remote mapping addrMapping cols
        rowid user).acts
      = (processRow { args with dryrun := false } remote mapping addrMapping cols
        rowid user).acts ∧
    (processRow { args with dryrun := true } remote mapping addrMapping cols
        rowid user).entries
      = ((processRow { args with dryrun := false } remote mapping addrMapping cols
        rowid user).entries).map
          (fun en => if en.status = "OK" then { en with status := "DRYRUN" } else en) := by
  obtain ⟨hda, hdf⟩ := deltaSteps_acts_fault { args with dryrun := true }
    { args with dryrun := false } remote cols p user hup hph
  obtain ⟨hta, htf1, htf2⟩ := sync_tags_acts_fault { args with dryrun := true }
    { args with dryrun := false } remote mapping p user hap
  have hm : ∀ (a : Args), a.update = false →
      mainStep a remote addrMapping cols (some p) user
        = (some p, deltaSteps a remote cols p user) := by
    intro a ha
    unfold mainStep
    dsimp only
    rw [if_neg (by simp [ha])]
  have htag :
      (tagStep { args with dryrun := true } remote mapping cols
        (some p, deltaSteps { args with dryrun := true } remote cols p user) user).acts
      = (tagStep { args with dryrun := false } remote mapping cols
        (some p, deltaSteps { args with dryrun := false } remote cols p user) user).acts ∧
      (tagStep { args with dryrun := true } remote mapping cols
        (some p, deltaSteps { args with dryrun := true } remote cols p user) user).fault
      = (tagStep { args with dryrun := false } remote mapping cols
        (some p, deltaSteps { args with dryrun := false } remote cols p user) user).fault := by
    unfold tagStep
    dsimp only
    by_cases hDf : (deltaSteps { args with dryrun := true } remote cols p
        user).fault.isSome = true
    · rw [if_pos hDf, if_pos (show (deltaSteps { args with dryrun := false } remote
        cols p user).fault.isSome = true by rw [← hdf]; exact hDf)]
      exact ⟨hda, hdf⟩
    · rw [if_neg hDf, if_neg (show ¬((deltaSteps { args with dryrun := false } remote
        cols p user).fault.isSome = true) by rw [← hdf]; exact hDf)]
      split_ifs with hct
      · constructor
        · rw [seq_acts, seq_acts, if_neg hDf,
            if_neg (show ¬((deltaSteps { args with dryrun := false } remote cols p
              user).fault.isSome = true) by rw [← hdf]; exact hDf), hda, hta]
        · rw [seq_fault, seq_fault, if_neg hDf,
            if_neg (show ¬((deltaSteps { args with dryrun := false } remote cols p
              user).fault.isSome = true) by rw [← hdf]; exact hDf), htf1, htf2]
      · exact ⟨hda, hdf⟩
  unfold processRow
  dsimp only
  rw [hlk]
  dsimp only
  rw [hm { args with dryrun := true } hupd, hm { args with dryrun := false } hupd]
  by_cases hTf : (tagStep { args with dryrun := true } remote mapping cols
      (some p, deltaSteps { args with dryrun := true } remote cols p user)
      user).fault.isSome = true
  · rw [if_pos hTf, if_pos (show (tagStep { args with dryrun := false } remote mapping
      cols (some p, deltaSteps { args with dryrun := false } remote cols p user)
      user).fault.isSome = true by rw [← htag.2]; exact hTf)]
    exact ⟨htag.1, by simp⟩
  · rw [if_neg hTf, if_neg (show ¬((tagStep { args with dryrun := false } remote mapping
      cols (some p, deltaSteps { args with dryrun := false } remote cols p user)
      user).fault.isSome = true) by rw [← htag.2]; exact hTf)]
    refine ⟨htag.1, ?_⟩
    simp only [List.nil_append, List.map_cons, List.map_nil, log_actions]
    rw [htag.1]
    rfl

/-- A full-featured dataset row used by the C6 witness. -/
def exRowFull : Row :=
  [("email", "x@y"), ("can2_subscription_status", "subscribed"),
   ("can2_phone", "+15551234567"), ("can2_user_tags", "Phone_Bank")]

/-- Witness for C6 amended at a concrete found-path row. -/
theorem C6_dryrun_live_equivalent_on_found_path_witness :
    exRemoteOk.lookup (exRowFull.getD "email" "") = Except.ok (some exPersonBase) ∧
    ((processRow { exArgs with dryrun := true } exRemoteOk exMapping []
        ⟨true, true, true⟩ 1 exRowFull).acts
      = (processRow { exArgs with dryrun := false } exRemoteOk exMapping []
        ⟨true, true, true⟩ 1 exRowFull).acts ∧
    (processRow { exArgs with dryrun := true } exRemoteOk exMapping []
        ⟨true, true, true⟩ 1 exRowFull).entries
      = ((processRow { exArgs with dryrun := false } exRemoteOk exMapping []
        ⟨true, true, true⟩ 1 exRowFull).entries).map
          (fun en => if en.status = "OK" then { en with status := "DRYRUN" } else en)) :=
  ⟨rfl,
   C6_dryrun_live_equivalent_on_found_path exArgs exRemoteOk exMapping []
     ⟨true, true, true⟩ 1 exRowFull exPersonBase rfl rfl
     (fun _ _ => rfl) (fun _ _ => rfl) (fun _ _ => rfl)⟩

/-! ### C8: phone extraction and deduplication -/

lemma get_user_phones_head (user : Row)
    (hm : truthy (user.getD "can2_phone" "") = true) :
    ∃ rest, (get_user_phones user).1
      = { phoneNumber := user.getD "can2_phone" "", phoneType := some "C",
          phoneOptInStatus :=
            if user.getD "can2_sms_status" "unknown" = "subscribed" then some "I"
            else none } :: rest := by
  unfold get_user_phones
  dsimp only
  rw [if_pos hm]
  by_cases hs : user.getD "can2_sms_status" "unknown" = "subscribed"
  · rw [if_pos hs, if_pos hs]
    split_ifs with h1 h2 h3
    · exact ⟨[{ phoneNumber := user.getD "Phone" "" },
        { phoneNumber := user.getD "Phone Number" "" }], by simp⟩
    · exact ⟨[{ phoneNumber := user.getD "Phone" "" }], by simp⟩
    · exact ⟨[{ phoneNumber := user.getD "Phone Number" "" }], by simp⟩
    · exact ⟨[], by simp⟩
  · rw [if_neg hs, if_neg hs]
    split_ifs with h1 h2 h3
    · exact ⟨[{ phoneNumber := user.getD "Phone" "" },
        { phoneNumber := user.getD "Phone Number" "" }], by simp⟩
    · exact ⟨[{ phoneNumber := user.getD "Phone" "" }], by simp⟩
    · exact ⟨[{ phoneNumber := user.getD "Phone Number" "" }], by simp⟩
    · exact ⟨[], by simp⟩

/-- C8: the mobile column plus the two generic phone columns are
deduplicated on digits-only form (leading + and 1 stripped): the concrete
colliding pair yields exactly one pushed phone; and whenever a mobile
number is present it is pushed first, carrying SMS opt-in status I exactly
when the companion column equals subscribed. -/
theorem C8_phone_dedup_and_sms_optin :
    (get_user_phones [("can2_phone", "+15551234567"),
        ("Phone", "555-123-4567")]).1.length = 1 ∧
    digits "+15551234567" = digits "555-123-4567" ∧
    (∀ user : Row, truthy (user.getD "can2_phone" "") = true →
      ∃ mob rest, (get_user_phones user).1 = mob :: rest ∧
        mob.phoneNumber = user.getD "can2_phone" "" ∧
        (mob.phoneOptInStatus = some "I" ↔
          user.getD "can2_sms_status" "unknown" = "subscribed")) := by
  refine ⟨rfl, rfl, ?_⟩
  intro user hm
  obtain ⟨rest, hrest⟩ := get_user_phones_head user hm
  refine ⟨_, rest, hrest, rfl, ?_⟩
  by_cases hs : user.getD "can2_sms_status" "unknown" = "subscribed" <;> simp [hs]

/-- Witness for C8 at a concrete row with SMS opt-in. -/
theorem C8_phone_dedup_and_sms_optin_witness :
    truthy (Row.getD [("can2_phone", "+15551234567"),
      ("can2_sms_status", "subscribed")] "can2_phone" "") = true ∧
    (get_user_phones [("can2_phone", "+15551234567"),
        ("Phone", "555-123-4567")]).1.length = 1 ∧
    ∃ mob rest,
      (get_user_phones [("can2_phone", "+15551234567"),
          ("can2_sms_status", "subscribed")]).1 = mob :: rest ∧
      mob.phoneNumber = Row.getD [("can2_phone", "+15551234567"),
        ("can2_sms_status", "subscribed")] "can2_phone" "" ∧
      (mob.phoneOptInStatus = some "I" ↔
        Row.getD [("can2_phone", "+15551234567"), ("can2_sms_status", "subscribed")]
          "can2_sms_status" "unknown" = "subscribed") :=
  ⟨by decide, C8_phone_dedup_and_sms_optin.1,
   C8_phone_dedup_and_sms_optin.2.2
     [("can2_phone", "+15551234567"), ("can2_sms_status", "subscribed")] (by decide)⟩

/-! ### C9: tag delta -/

/-- Recognizer for apply-activist-code calls. -/
def isApplyCall : RemoteCall → Bool
  | .applyActivistCode _ _ => true
  | _ => false

/-- Recognizer for activist-kind mapping values. -/
def isActivistKind : CodeData → Bool
  | .activist _ _ => true
  | .generic _ _ => false

lemma applyRemaining_apply_calls (args : Args) (remote : Remote) (vanId : Nat)
    (rest : List (Nat × CodeData)) (st : StepResult)
    (hd : args.dryrun = false)
    (hap : ∀ i v, remote.applyActivistCode i v = Except.ok ()) :
    ((applyRemaining args remote vanId rest st).calls.filter isApplyCall)
      = (st.calls.filter isApplyCall)
        ++ (rest.filter (fun q => isActivistKind q.2)).map
            (fun q => RemoteCall.applyActivistCode q.1 vanId) := by
  induction rest generalizing st with
  | nil => simp [applyRemaining]
  | cons q rest ih =>
    obtain ⟨i, cd⟩ := q
    cases cd with
    | generic j name =>
      rw [show applyRemaining args remote vanId ((i, CodeData.generic j name) :: rest) st
          = applyRemaining args remote vanId rest st from rfl]
      rw [ih st]
      simp [isActivistKind]
    | activist j name =>
      have hstep : applyRemaining args remote vanId
          ((i, CodeData.activist j name) :: rest) st
          = applyRemaining args remote vanId rest
              { acts := st.acts ++ [name],
                calls := st.calls ++ [.applyActivistCode i vanId], fault := st.fault } := by
        simp only [applyRemaining, hap]
        rw [if_neg (by simp [hd])]
      rw [hstep, ih]
      simp [isActivistKind, isApplyCall, List.filter_append]

/-- A remote on which code 42 is already applied to every contact. -/
def exRemoteApplied : Remote := { exRemoteOk with activistCodes := fun _ => [42] }

/-- C9: in a live run with a healthy remote, the apply-activist-code calls
of the tag delta are exactly the activist-kind entries of the resolved tag
dictionary minus the codes already applied to the contact — so a resolved
code not yet applied is applied exactly once, an already-applied code is
not re-applied, and generic-kind entries are never pushed.  Concretely:
the Phone_Bank row yields one applyActivistCode(42) call against a bare
contact and none against a contact that already carries 42. -/
theorem C9_tag_delta_applies_missing_activist_codes
    (args : Args) (remote : Remote) (mapping : List (String × CodeData))
    (person : Person) (user : Row)
    (hd : args.dryrun = false)
    (hap : ∀ i v, remote.applyActivistCode i v = Except.ok ()) :
    (((sync_tags args remote mapping person user).calls.filter isApplyCall)
      = (((codeByName mapping (user.getD "can2_user_tags" "")).filter
          (fun q => !((remote.activistCodes person.van_id).contains q.1))).filter
          (fun q => isActivistKind q.2)).map
          (fun q => RemoteCall.applyActivistCode q.1 person.van_id)) ∧
    (sync_tags exArgs exRemoteOk exMapping exPersonBase
        [("can2_user_tags", "Phone_Bank")]).calls
      = [RemoteCall.listActivistCodes 7, RemoteCall.applyActivistCode 42 7] ∧
    (sync_tags exArgs exRemoteApplied exMapping exPersonBase
        [("can2_user_tags", "Phone_Bank")]).calls
      = [RemoteCall.listActivistCodes 7] := by
  refine ⟨?_, rfl, rfl⟩
  unfold sync_tags
  dsimp only
  split_ifs with hlen
  · rw [applyRemaining_apply_calls args remote person.van_id _ _ hd hap]
    simp [isApplyCall]
  · have hnil : codeByName mapping (user.getD "can2_user_tags" "") = [] := by
      rcases h : codeByName mapping (user.getD "can2_user_tags" "") with _ | ⟨q, t⟩
      · rfl
      · exfalso
        rw [h] at hlen
        simp at hlen
    rw [hnil]
    rfl

/-- Witness for C9 at the concrete Phone_Bank scenario. -/
theorem C9_tag_delta_applies_missing_activist_codes_witness :
    exArgs.dryrun = false ∧
    (((sync_tags exArgs exRemoteOk exMapping exPersonBase
        [("can2_user_tags", "Phone_Bank")]).calls.filter isApplyCall)
      = (((codeByName exMapping (Row.getD [("can2_user_tags", "Phone_Bank")]
            "can2_user_tags" "")).filter
          (fun q => !((exRemoteOk.activistCodes exPersonBase.van_id).contains q.1))).filter
          (fun q => isActivistKind q.2)).map
          (fun q => RemoteCall.applyActivistCode q.1 exPersonBase.van_id)) ∧
    (sync_tags exArgs exRemoteOk exMapping exPersonBase
        [("can2_user_tags", "Phone_Bank")]).calls
      = [RemoteCall.listActivistCodes 7, RemoteCall.applyActivistCode 42 7] :=
  ⟨rfl,
   (C9_tag_delta_applies_missing_activist_codes exArgs exRemoteOk exMapping
      exPersonBase [("can2_user_tags", "Phone_Bank")] rfl (fun _ _ => rfl)).1,
   (C9_tag_delta_applies_missing_activist_codes exArgs exRemoteOk exMapping
      exPersonBase [("can2_user_tags", "Phone_Bank")] rfl (fun _ _ => rfl)).2.1⟩

/-! ### C10: created-contact subscription flag -/

/-- C10: in a live run, the create/force-update path issues exactly one
find-or-create call whose email payload sets isSubscribed to true exactly
when the row's can2_subscription_status column equals unsubscribed (and
false otherwise, including for rows declaring subscribed). -/
theorem C10_created_contact_isSubscribed_inverted
    (args : Args) (remote : Remote) (addrMapping : List (String × String))
    (user : Row) (hd : args.dryrun = false) :
    (update_or_create args remote addrMapping user).calls
      = [RemoteCall.findOrCreate
          (buildPersonFields addrMapping user (get_user_phones user).1)] ∧
    ∀ ef ∈ (buildPersonFields addrMapping user (get_user_phones user).1).emails,
      (ef.isSubscribed = true ↔
        user.getD "can2_subscription_status" "" = "unsubscribed") := by
  constructor
  · unfold update_or_create
    dsimp only
    rw [hd]
    rw [if_pos (by decide)]
    cases remote.findOrCreate (buildPersonFields addrMapping user
      (get_user_phones user).1) <;> rfl
  · intro ef hef
    unfold buildPersonFields at hef
    simp only [List.mem_singleton] at hef
    subst hef
    simp

/-- Witness for C10 at a row that declares subscribed: the created email
record is NOT marked subscribed. -/
theorem C10_created_contact_isSubscribed_inverted_witness :
    exArgs.dryrun = false ∧
    (update_or_create exArgs exRemoteOk []
        [("email", "x@y"), ("can2_subscription_status", "subscribed")]).calls
      = [RemoteCall.findOrCreate
          (buildPersonFields [] [("email", "x@y"),
            ("can2_subscription_status", "subscribed")]
            (get_user_phones [("email", "x@y"),
              ("can2_subscription_status", "subscribed")]).1)] ∧
    ∀ ef ∈ (buildPersonFields [] [("email", "x@y"),
        ("can2_subscription_status", "subscribed")]
        (get_user_phones [("email", "x@y"),
          ("can2_subscription_status", "subscribed")]).1).emails,
      (ef.isSubscribed = true ↔
        Row.getD [("email", "x@y"), ("can2_subscription_status", "subscribed")]
          "can2_subscription_status" "" = "unsubscribed") :=
  ⟨rfl,
   (C10_created_contact_isSubscribed_inverted exArgs exRemoteOk []
      [("email", "x@y"), ("can2_subscription_status", "subscribed")] rfl).1,
   (C10_created_contact_isSubscribed_inverted exArgs exRemoteOk []
      [("email", "x@y"), ("can2_subscription_status", "subscribed")] rfl).2⟩

end SyncActivists
